import Mathlib

/-!
Verification of the Nearify business-directory claim/search/availability logic.

Shallow embedding of the Python source:
  * finder/models.py   (BusinessClaim.verify, FeaturedBusiness helpers)
  * finder/views.py    (claim_request, claim_verify, search_business, helpers)
  * finder/services/osm.py (overpass_search)

Modelling conventions:
  * timestamps (timezone.now(), expires_at, featured_until, ...) are Nat
    ticks ordered like datetimes;
  * times of day (datetime.time) are Nat minutes since midnight, compared
    exactly as Python compares time objects;
  * SHA-256 hashing (hashlib.sha256(...).hexdigest()) is passed in as an
    abstract function parameter hashFn : String -> String, since no claim
    depends on properties of the digest beyond equality of hashes;
  * the pseudo-random draw random.randint(100000, 999999) is passed in as a
    Nat parameter constrained by the same bounds;
  * Django query-set operations are modelled over List, with icontains as
    case-insensitive substring containment and ordering by mergeSort;
  * nullable columns are Option; Python float ratings are modelled as Rat.
-/


/-- One step of Python str.strip: drop leading whitespace from a char list. -/
def dropWs (l : List Char) : List Char :=
  l.dropWhile Char.isWhitespace

/-- Python str.strip(): whitespace removed from both ends.  Implemented
structurally over the character list (String.trim itself does not reduce in
the kernel). -/
def pyStrip (s : String) : String :=
  ⟨((dropWs s.data).reverse |> dropWs).reverse⟩

/-- Python str.lower() over the character list. -/
def pyLower (s : String) : String :=
  ⟨s.data.map Char.toLower⟩

/-- Whether needle occurs as a contiguous run inside hay (Python in-operator
on strings, and the core of Django icontains). -/
def listContainsSub (needle : List Char) : List Char → Bool
  | [] => needle.isEmpty
  | c :: rest => needle.isPrefixOf (c :: rest) || listContainsSub needle rest

/-- Fuel-indexed replacement of every non-overlapping occurrence of pat by
repl, left to right — Python str.replace.  Fuel is the list length, enough
because every step consumes at least one character. -/
def replaceAux (pat repl : List Char) : Nat → List Char → List Char
  | 0, l => l
  | _ + 1, [] => []
  | fuel + 1, c :: rest =>
    if pat ≠ [] && pat.isPrefixOf (c :: rest) then
      repl ++ replaceAux pat repl fuel (rest.drop (pat.length - 1))
    else
      c :: replaceAux pat repl fuel rest

/-- Python str.replace(pat, repl) for a non-empty pat. -/
def pyReplace (s pat repl : String) : String :=
  ⟨replaceAux pat.data repl.data s.data.length s.data⟩

/-- Fuel-indexed split on a non-empty separator, accumulating the current
piece reversed — Python str.split(sep). -/
def splitOnAux (sep : List Char) : Nat → List Char → List Char → List (List Char)
  | 0, l, cur => [cur.reverse ++ l]
  | _ + 1, [], cur => [cur.reverse]
  | fuel + 1, c :: rest, cur =>
    if sep.isPrefixOf (c :: rest) then
      cur.reverse :: splitOnAux sep fuel (rest.drop (sep.length - 1)) []
    else
      splitOnAux sep fuel rest (c :: cur)

/-- Python str.split(sep) for a non-empty separator. -/
def pySplit (s sep : String) : List String :=
  (splitOnAux sep.data s.data.length s.data []).map List.asString

/-- Status column of a BusinessClaim row (models.py STATUS_CHOICES). -/
inductive ClaimStatus where
  | pending
  | verified
  | expired
  | blocked
deriving DecidableEq

/-- A BusinessClaim row (finder/models.py class BusinessClaim).  The id
column, created_at and the FK objects are represented by plain Nat ids. -/
structure BusinessClaim where
  business : Nat
  user : Nat
  email : String
  codeHash : String
  status : ClaimStatus
  expiresAt : Nat
  attempts : Nat
  lastSentAt : Option Nat
  verifiedAt : Option Nat
deriving DecidableEq

/-- models.py BusinessClaim.is_expired: timezone.now() > self.expires_at. -/
def BusinessClaim.is_expired (now : Nat) (c : BusinessClaim) : Bool :=
  decide (now > c.expiresAt)

/-- models.py BusinessClaim.is_verified:
status == verified and verified_at is not None. -/
def BusinessClaim.is_verified (c : BusinessClaim) : Bool :=
  c.status == ClaimStatus.verified && c.verifiedAt.isSome

/-- models.py BusinessClaim.verify(code, max_attempts=5): returns the bool
result together with the updated row (the save() calls mutate self). -/
def BusinessClaim.verify (hashFn : String → String) (now : Nat) (maxAttempts : Nat)
    (c : BusinessClaim) (code : String) : Bool × BusinessClaim :=
  if c.is_verified then
    (true, c)
  else if c.is_expired now then
    (false, { c with status := ClaimStatus.expired })
  else if maxAttempts ≤ c.attempts then
    (false, { c with status := ClaimStatus.blocked })
  else
    let c2 := { c with attempts := c.attempts + 1 }
    if hashFn code == c2.codeHash then
      (true, { c2 with status := ClaimStatus.verified, verifiedAt := some now })
    else
      (false, c2)

/-- C1: once a claim is verified (status verified with a non-null
verification timestamp), every later call of verify returns true and leaves
the row unchanged — in particular the status stays verified and the
submitted code is not re-checked (the row is returned before any hash
comparison). -/
theorem C1_verify_idempotent_once_verified (hashFn : String → String)
    (now maxAttempts : Nat) (c : BusinessClaim) (code : String)
    (h : c.is_verified = true) :
    BusinessClaim.verify hashFn now maxAttempts c code = (true, c)
      ∧ c.status = ClaimStatus.verified := by
  have hs : c.status = ClaimStatus.verified := by
    have := h
    unfold BusinessClaim.is_verified at this
    rcases Bool.and_eq_true_iff.mp this with ⟨h1, _⟩
    exact beq_iff_eq.mp h1
  refine ⟨?_, hs⟩
  unfold BusinessClaim.verify
  simp [h]

/-- C1 witness: a concrete verified claim row is returned untouched. -/
theorem C1_witness :
    BusinessClaim.verify id 99 5
      ⟨1, 2, "o@acme.com", "h", ClaimStatus.verified, 50, 3, none, some 40⟩ "123456"
      = (true, ⟨1, 2, "o@acme.com", "h", ClaimStatus.verified, 50, 3, none, some 40⟩) :=
  (C1_verify_idempotent_once_verified id 99 5
      ⟨1, 2, "o@acme.com", "h", ClaimStatus.verified, 50, 3, none, some 40⟩ "123456"
      (by decide)).1

/-- C2 counterexample: a pending claim whose attempt counter (6) exceeds the
core ceiling of 5 but whose expiry has also passed.  verify returns false
but sets the status to expired, not blocked — the expiry check runs before
the attempts check, so the claim as stated is false for this record. -/
theorem C2_counterexample :
    (BusinessClaim.verify id 10 5
        ⟨1, 2, "o@acme.com", "h", ClaimStatus.pending, 3, 6, none, none⟩ "123456").2.status
      ≠ ClaimStatus.blocked
    ∧ (BusinessClaim.verify id 10 5
        ⟨1, 2, "o@acme.com", "h", ClaimStatus.pending, 3, 6, none, none⟩ "123456").2.status
      = ClaimStatus.expired := by
  constructor <;> decide

/-- C2 (amended): for a claim that is not already verified and not past its
expiry, once the attempt counter has reached the core ceiling of 5 — in
particular whenever it exceeds it — verify returns false and sets the
status to blocked, regardless of the submitted code. -/
theorem C2_blocked_once_attempts_reach_ceiling (hashFn : String → String)
    (now : Nat) (c : BusinessClaim) (code : String)
    (hv : c.is_verified = false) (he : c.is_expired now = false)
    (ha : 5 ≤ c.attempts) :
    BusinessClaim.verify hashFn now 5 c code
      = (false, { c with status := ClaimStatus.blocked }) := by
  unfold BusinessClaim.verify
  simp [hv, he, ha]

/-- C2 witness: a concrete pending, unexpired claim with 7 attempts is
blocked even when the correct code is submitted (hashFn = id, code matches
the stored hash). -/
theorem C2_witness :
    BusinessClaim.verify id 10 5
        ⟨1, 2, "o@acme.com", "123456", ClaimStatus.pending, 100, 7, none, none⟩ "123456"
      = (false, ⟨1, 2, "o@acme.com", "123456", ClaimStatus.blocked, 100, 7, none, none⟩) :=
  C2_blocked_once_attempts_reach_ceiling id 10
    ⟨1, 2, "o@acme.com", "123456", ClaimStatus.pending, 100, 7, none, none⟩ "123456"
    (by decide) (by decide) (by decide)

/-- C3 counterexample: a claim that was verified earlier and whose expiry
has since passed.  verify returns true and leaves the status verified — the
is_verified short-circuit runs before the expiry check, so the claim as
stated (verify after expiry always returns false and sets status expired)
is false for this record. -/
theorem C3_counterexample :
    (BusinessClaim.verify id 10 5
        ⟨1, 2, "o@acme.com", "h", ClaimStatus.verified, 5, 1, none, some 4⟩ "123456").1
      = true
    ∧ (BusinessClaim.verify id 10 5
        ⟨1, 2, "o@acme.com", "h", ClaimStatus.verified, 5, 1, none, some 4⟩ "123456").2.status
      ≠ ClaimStatus.expired := by
  constructor <;> decide

/-- C3 (amended): for a claim that is not already verified, any call of
verify after the expiry timestamp has passed returns false and sets the
status to expired, even when the submitted code is the correct one, and for
any attempts ceiling. -/
theorem C3_expired_after_deadline (hashFn : String → String)
    (now maxAttempts : Nat) (c : BusinessClaim) (code : String)
    (hv : c.is_verified = false) (he : c.expiresAt < now) :
    BusinessClaim.verify hashFn now maxAttempts c code
      = (false, { c with status := ClaimStatus.expired }) := by
  have he2 : c.is_expired now = true := by
    unfold BusinessClaim.is_expired
    exact decide_eq_true he
  unfold BusinessClaim.verify
  simp [hv, he2]

/-- C3 witness: a concrete pending claim past its expiry, submitted with the
correct code (hashFn = id, code equals the stored hash), still fails and is
marked expired. -/
theorem C3_witness :
    BusinessClaim.verify id 20 5
        ⟨1, 2, "o@acme.com", "123456", ClaimStatus.pending, 15, 0, none, none⟩ "123456"
      = (false, ⟨1, 2, "o@acme.com", "123456", ClaimStatus.expired, 15, 0, none, none⟩) :=
  C3_expired_after_deadline id 20 5
    ⟨1, 2, "o@acme.com", "123456", ClaimStatus.pending, 15, 0, none, none⟩ "123456"
    (by decide) (by decide)

/-- Outcome of a POST to the claim_verify view (finder/views.py claim_verify):
which redirect or re-render the handler ends in. -/
inductive VerifyViewOutcome where
  | alreadyVerified
  | expiredCode
  | tooManyAttempts
  | invalidCode
  | success
deriving DecidableEq

/-- views.py claim_verify, POST branch, acting on the claim row: strips the
posted code, increments attempts unconditionally, enforces the 8-attempt
ceiling by redirecting, and on a hash match sets only verified_at.  It never
assigns the status column.  (The side effect on the business row — assigning
the owner — is not represented, since no claim is about it.) -/
def claim_verify (hashFn : String → String) (now : Nat)
    (c : BusinessClaim) (codeRaw : String) : VerifyViewOutcome × BusinessClaim :=
  if c.verifiedAt.isSome then
    (VerifyViewOutcome.alreadyVerified, c)
  else if decide (now > c.expiresAt) then
    (VerifyViewOutcome.expiredCode, c)
  else
    let code := pyStrip codeRaw
    let c2 := { c with attempts := c.attempts + 1 }
    if decide (c2.attempts > 8) then
      (VerifyViewOutcome.tooManyAttempts, c2)
    else if hashFn code != c2.codeHash then
      (VerifyViewOutcome.invalidCode, c2)
    else
      (VerifyViewOutcome.success, { c2 with verifiedAt := some now })

/-- C5: the request-layer verification handler never modifies the status
column: on a successful code match it sets only verified_at (and the
incremented attempt counter), on exceeding its 8-attempt ceiling it
redirects changing only the attempt counter (so status never becomes
blocked there), and a pending claim verified through this flow stays
pending, with the model property is_verified still false. -/
theorem C5_view_verify_never_touches_status (hashFn : String → String)
    (now : Nat) (c : BusinessClaim) (codeRaw : String)
    (out : VerifyViewOutcome) (c2 : BusinessClaim)
    (h : claim_verify hashFn now c codeRaw = (out, c2)) :
    c2.status = c.status
    ∧ (out = VerifyViewOutcome.success →
        c2 = { c with attempts := c.attempts + 1, verifiedAt := some now })
    ∧ (out = VerifyViewOutcome.tooManyAttempts →
        c2 = { c with attempts := c.attempts + 1 })
    ∧ (c.status = ClaimStatus.pending → c2.is_verified = false) := by
  have hc2 : c2 = (claim_verify hashFn now c codeRaw).2 := by rw [h]
  have hout : out = (claim_verify hashFn now c codeRaw).1 := by rw [h]
  subst hc2
  subst hout
  simp only [claim_verify]
  split_ifs with h1 h2 h3 h4
  · refine ⟨rfl, ?_, ?_, ?_⟩
    · intro hh; cases hh
    · intro hh; cases hh
    · intro hp; simp [BusinessClaim.is_verified, hp]
  · refine ⟨rfl, ?_, ?_, ?_⟩
    · intro hh; cases hh
    · intro hh; cases hh
    · intro hp; simp [BusinessClaim.is_verified, hp]
  · refine ⟨rfl, ?_, ?_, ?_⟩
    · intro hh; cases hh
    · intro _; rfl
    · intro hp; simp [BusinessClaim.is_verified, hp]
  · refine ⟨rfl, ?_, ?_, ?_⟩
    · intro hh; cases hh
    · intro hh; cases hh
    · intro hp; simp [BusinessClaim.is_verified, hp]
  · refine ⟨rfl, ?_, ?_, ?_⟩
    · intro _; rfl
    · intro hh; cases hh
    · intro hp; simp [BusinessClaim.is_verified, hp]

/-- C5 witness: a concrete pending claim, correct code (hashFn = id): the
handler reports success, the row keeps status pending and is_verified stays
false. -/
theorem C5_witness :
    (⟨1, 2, "o@acme.com", "123456", ClaimStatus.pending, 100, 4, none, some 10⟩
        : BusinessClaim).status
      = (⟨1, 2, "o@acme.com", "123456", ClaimStatus.pending, 100, 3, none, none⟩
        : BusinessClaim).status
    ∧ ((⟨1, 2, "o@acme.com", "123456", ClaimStatus.pending, 100, 4, none, some 10⟩
        : BusinessClaim).is_verified = false) := by
  have h := C5_view_verify_never_touches_status id 10
    ⟨1, 2, "o@acme.com", "123456", ClaimStatus.pending, 100, 3, none, none⟩ "123456"
    VerifyViewOutcome.success
    ⟨1, 2, "o@acme.com", "123456", ClaimStatus.pending, 100, 4, none, some 10⟩
    (by decide)
  exact ⟨h.1, h.2.2.2 rfl⟩

/-- Joins a list of strings with a separator (str.join / ", ".join(...)),
implemented structurally. -/
def joinWith (sep : String) : List String → String
  | [] => ""
  | [x] => x
  | x :: y :: rest => x ++ sep ++ joinWith sep (y :: rest)

/-- A FeaturedBusiness row (finder/models.py class FeaturedBusiness).
Timestamps are Nat ticks, times of day Nat minutes.  The image file field,
Stripe tracking fields, analytics counters and created_at are omitted: no
modelled operation reads them. -/
structure FeaturedBusiness where
  id : Nat
  name : String
  category : String
  location : String
  address : String
  city : String
  state : String
  zipCode : String
  isManual : Bool
  yelpId : Option String
  url : Option String
  phone : Option String
  imageUrl : Option String
  rating : Option ℚ
  reviewCount : Option Int
  openTime : Option Nat
  closeTime : Option Nat
  isOnHoliday : Bool
  holidayNote : Option String
  holidayUntil : Option Nat
  plan : String
  isActive : Bool
  featuredFrom : Option Nat
  featuredUntil : Option Nat
  priority : Int
  ownerId : Option Nat
deriving DecidableEq

/-- urlparse(url).netloc for URLs written scheme://host...: the text after
the first "://" up to the first of / ? #, or empty when no "://" occurs
(urlparse yields an empty netloc for scheme-less strings). -/
def netlocOf (s : String) : String :=
  match pySplit s "://" with
  | _ :: rest :: more =>
      ⟨(joinWith "://" (rest :: more)).data.takeWhile
        (fun ch => (ch != '/') && (ch != '?') && (ch != '#'))⟩
  | _ => ""

/-- views.py _domain_from_url: empty for a missing or empty url, otherwise
the lowercased netloc with every "www." removed. -/
def _domain_from_url (url : Option String) : String :=
  match url with
  | none => ""
  | some u => if u = "" then "" else pyReplace (pyLower (netlocOf u)) "www." ""

/-- views.py claim_request: email.split("@")[-1].replace("www.", ""). -/
def emailDomainOf (email : String) : String :=
  pyReplace ((pySplit email "@").getLast?.getD "") "www." ""

/-- views.py _gen_code: f-string of random.randint(100000, 999999); the
drawn number is a parameter. -/
def _gen_code (n : Nat) : String :=
  toString n

/-- The guard at the top of claim_request: biz.owner and biz.owner != user. -/
def ownerBlocks (biz : FeaturedBusiness) (userId : Nat) : Bool :=
  match biz.ownerId with
  | some o => o != userId
  | none => false

/-- The rows deleted by claim_request before creating a new claim:
business=biz, user=user, verified_at isnull, expires_at < now. -/
def expiredUnverifiedFor (now bizId userId : Nat) (cl : BusinessClaim) : Bool :=
  cl.business == bizId && cl.user == userId
    && cl.verifiedAt.isNone && decide (cl.expiresAt < now)

/-- Outcome of a POST to the claim_request view: which message/redirect the
handler ends in. -/
inductive ClaimRequestOutcome where
  | alreadyClaimed
  | noWebsiteDomain
  | invalidEmail
  | domainMismatch
  | sent
deriving DecidableEq

/-- views.py claim_request, POST branch, acting on the claim table: guards
(already claimed, no website domain, malformed email, domain mismatch) leave
the table untouched; on success it first deletes expired unverified claims
of the same (business, user) pair, then appends a pending claim storing the
hash of the generated code with expiry now + 10 minutes.  The outbound
email carrying the plaintext code is not represented. -/
def claim_request (hashFn : String → String) (now : Nat)
    (biz : FeaturedBusiness) (userId : Nat) (emailRaw : String) (codeNum : Nat)
    (store : List BusinessClaim) : ClaimRequestOutcome × List BusinessClaim :=
  if ownerBlocks biz userId then
    (ClaimRequestOutcome.alreadyClaimed, store)
  else
    let websiteDomain := _domain_from_url biz.url
    let email := pyLower (pyStrip emailRaw)
    if websiteDomain = "" then
      (ClaimRequestOutcome.noWebsiteDomain, store)
    else if !(email.data.contains '@') then
      (ClaimRequestOutcome.invalidEmail, store)
    else if emailDomainOf email ≠ websiteDomain then
      (ClaimRequestOutcome.domainMismatch, store)
    else
      let cleaned := store.filter (fun cl => !(expiredUnverifiedFor now biz.id userId cl))
      let code := _gen_code codeNum
      (ClaimRequestOutcome.sent,
        cleaned ++ [{ business := biz.id, user := userId, email := email,
                      codeHash := hashFn code, status := ClaimStatus.pending,
                      expiresAt := now + 10 * 60, attempts := 0,
                      lastSentAt := none, verifiedAt := none }])

/-- Any number drawn by random.randint(100000, 999999) has exactly six
decimal digits. -/
theorem sixDigitCount (n : Nat) (h1 : 100000 ≤ n) (h2 : n ≤ 999999) :
    (Nat.digits 10 n).length = 6 := by
  have hn : n ≠ 0 := by omega
  rw [Nat.digits_len 10 n (by norm_num) hn]
  have hp5 : (10 : ℕ) ^ 5 = 100000 := by norm_num
  have hp6 : (10 : ℕ) ^ (5 + 1) = 1000000 := by norm_num
  have hlog : Nat.log 10 n = 5 :=
    Nat.log_eq_of_pow_le_of_lt_pow (by omega) (by omega)
  omega

/-- C4: starting a claim requires a derivable non-empty website domain for
the listing and a case-insensitive match between the email domain and it
(both sides are compared lowercased with the www. marker removed); on any
failed guard the handler reports an error and the claim table is unchanged.
On success the table becomes: the old rows minus the expired unverified
claims of the same (listing, user) pair, plus one new pending row storing
only the hash of the freshly drawn six-digit code, expiring at now + 10
minutes.  The outcome depends on the submitted email only through its
lowercased form, which is what makes the domain check case-insensitive. -/
theorem C4_claim_request_guards_and_success (hashFn : String → String)
    (now : Nat) (biz : FeaturedBusiness) (userId : Nat) (emailRaw : String)
    (codeNum : Nat) (store : List BusinessClaim)
    (out : ClaimRequestOutcome) (store2 : List BusinessClaim)
    (hlo : 100000 ≤ codeNum) (hhi : codeNum ≤ 999999)
    (h : claim_request hashFn now biz userId emailRaw codeNum store = (out, store2)) :
    (out ≠ ClaimRequestOutcome.sent → store2 = store)
    ∧ (out = ClaimRequestOutcome.sent →
        _domain_from_url biz.url ≠ ""
        ∧ emailDomainOf (pyLower (pyStrip emailRaw)) = _domain_from_url biz.url
        ∧ store2 = store.filter (fun cl => !(expiredUnverifiedFor now biz.id userId cl))
            ++ [{ business := biz.id, user := userId,
                  email := pyLower (pyStrip emailRaw),
                  codeHash := hashFn (_gen_code codeNum),
                  status := ClaimStatus.pending,
                  expiresAt := now + 10 * 60, attempts := 0,
                  lastSentAt := none, verifiedAt := none }]
        ∧ (Nat.digits 10 codeNum).length = 6)
    ∧ (∀ e2 : String, pyLower (pyStrip e2) = pyLower (pyStrip emailRaw) →
        claim_request hashFn now biz userId e2 codeNum store
          = claim_request hashFn now biz userId emailRaw codeNum store) := by
  have hstore2 : store2 = (claim_request hashFn now biz userId emailRaw codeNum store).2 := by
    rw [h]
  have hout : out = (claim_request hashFn now biz userId emailRaw codeNum store).1 := by
    rw [h]
  subst hstore2
  subst hout
  refine ⟨?_, ?_, ?_⟩
  · simp only [claim_request]
    split_ifs <;> simp
  · simp only [claim_request]
    split_ifs with h1 h2 h3 h4
    · simp
    · simp
    · simp
    · simp
    · intro _
      refine ⟨h2, ?_, rfl, sixDigitCount codeNum hlo hhi⟩
      exact not_not.mp (by simpa using h4)
  · intro e2 he
    simp only [claim_request, he]

/-- C4 witness: a concrete listing with url https://www.acme.com and owner
unset, email Owner@ACME.com, code 123456, one stale claim in the table: the
request succeeds, the stale row is purged and the new pending row stores
hash and expiry as stated. -/
theorem C4_witness :
    ((ClaimRequestOutcome.sent : ClaimRequestOutcome) ≠ ClaimRequestOutcome.sent →
        ([⟨7, 3, "o@acme.com", "x", ClaimStatus.pending, 10, 2, none, none⟩]
          : List BusinessClaim)
          = [⟨7, 3, "o@acme.com", "x", ClaimStatus.pending, 10, 2, none, none⟩])
    ∧ (Nat.digits 10 123456).length = 6 := by
  have h := C4_claim_request_guards_and_success id 50
    ⟨7, "Acme", "salon", "Indy, IN", "1 Main St", "Indy", "IN", "460",
      true, none, some "https://www.acme.com", none, none, none, none,
      some 540, some 1020, false, none, none, "featured", false, none, none, 0, none⟩
    3 "Owner@ACME.com" 123456
    [⟨7, 3, "o@acme.com", "x", ClaimStatus.pending, 10, 2, none, none⟩]
    ClaimRequestOutcome.sent
    ([⟨7, 3, "o@acme.com", "x", ClaimStatus.pending, 10, 2, none, none⟩].filter
        (fun cl => !(expiredUnverifiedFor 50 7 3 cl))
      ++ [{ business := 7, user := 3, email := pyLower (pyStrip "Owner@ACME.com"),
            codeHash := id (_gen_code 123456), status := ClaimStatus.pending,
            expiresAt := 50 + 10 * 60, attempts := 0,
            lastSentAt := none, verifiedAt := none }])
    (by norm_num) (by norm_num) (by decide)
  exact ⟨fun hh => absurd rfl hh, (h.2.1 rfl).2.2.2⟩

/-- views.py _is_open_now(open_time, close_time, now_time): false when either
bound is missing; inclusive containment for a same-day interval
(open <= close); inclusive union of the two half-ranges for an overnight
interval (open > close). -/
def _is_open_now (openTime closeTime : Option Nat) (nowTime : Nat) : Bool :=
  match openTime, closeTime with
  | some ot, some ct =>
    if ot ≤ ct then
      decide (ot ≤ nowTime ∧ nowTime ≤ ct)
    else
      decide (nowTime ≥ ot ∨ nowTime ≤ ct)
  | _, _ => false

/-- The lazy holiday reset shared by FeaturedBusiness.is_open_now and
views._business_available_now: when the holiday flag is set and
holiday_until has passed (holiday_until <= now), the flag, the expiry and
the note are cleared and saved. -/
def clearExpiredHoliday (now : Nat) (b : FeaturedBusiness) : FeaturedBusiness :=
  if b.isOnHoliday
      && (match b.holidayUntil with
          | some t => decide (t ≤ now)
          | none => false) then
    { b with isOnHoliday := false, holidayUntil := none, holidayNote := none }
  else
    b

/-- models.py FeaturedBusiness.is_open_now(now_dt): the holiday reset runs
first (a write-back, so the updated row is returned too); an active holiday
forces closed; otherwise the hours check.  now is the timestamp used for
the holiday comparison, nowTime the local time of day. -/
def FeaturedBusiness.is_open_now (now nowTime : Nat) (b : FeaturedBusiness) :
    Bool × FeaturedBusiness :=
  let b2 := clearExpiredHoliday now b
  if b2.isOnHoliday then
    (false, b2)
  else
    (match b2.openTime, b2.closeTime with
      | some ot, some ct =>
        if ot ≤ ct then
          decide (ot ≤ nowTime ∧ nowTime ≤ ct)
        else
          decide (nowTime ≥ ot ∨ nowTime ≤ ct)
      | _, _ => false, b2)

/-- views.py _business_available_now(biz): same holiday reset, then the
_is_open_now helper on the (possibly updated) row. -/
def _business_available_now (now nowTime : Nat) (b : FeaturedBusiness) :
    Bool × FeaturedBusiness :=
  let b2 := clearExpiredHoliday now b
  if b2.isOnHoliday then
    (false, b2)
  else
    (_is_open_now b2.openTime b2.closeTime nowTime, b2)

/-- C8: with no holiday in play, the hours helper returns false when either
bound is missing; for open <= close it is true exactly on the inclusive
interval; for open > close (overnight) exactly on the inclusive union of
the two half-ranges; and the concrete examples of the spec hold
(09:00-17:00 at 12:00 / 08:00 / 18:00, and 20:00-02:00 at 23:00 / 01:00 /
10:00, in minutes since midnight). -/
theorem C8_is_open_now_intervals (o c now : Nat) :
    (∀ x : Option Nat, _is_open_now none x now = false ∧ _is_open_now x none now = false)
    ∧ (o ≤ c → (_is_open_now (some o) (some c) now = true ↔ o ≤ now ∧ now ≤ c))
    ∧ (c < o → (_is_open_now (some o) (some c) now = true ↔ now ≥ o ∨ now ≤ c))
    ∧ _is_open_now (some 540) (some 1020) 720 = true
    ∧ _is_open_now (some 540) (some 1020) 480 = false
    ∧ _is_open_now (some 540) (some 1020) 1080 = false
    ∧ _is_open_now (some 1200) (some 120) 1380 = true
    ∧ _is_open_now (some 1200) (some 120) 60 = true
    ∧ _is_open_now (some 1200) (some 120) 600 = false := by
  refine ⟨?_, ?_, ?_, by decide, by decide, by decide, by decide, by decide, by decide⟩
  · intro x
    constructor
    · rfl
    · cases x <;> rfl
  · intro hle
    simp [_is_open_now, hle]
  · intro hlt
    simp [_is_open_now, Nat.not_le.mpr hlt]

/-- C8 witness: the same-day characterisation applied at open 09:00, close
17:00, now 12:00. -/
theorem C8_witness :
    _is_open_now (some 540) (some 1020) 720 = true ∧ (540 ≤ 720 ∧ 720 ≤ 1020) :=
  ⟨((C8_is_open_now_intervals 540 1020 720).2.1 (by decide)).mpr ⟨by decide, by decide⟩,
    by decide, by decide⟩

/-- C9: for a listing flagged on holiday, if holiday_until has passed, one
evaluation of is_open_now clears the flag (the returned row has it false)
and the returned open/closed answer is exactly the plain hours evaluation
on that same call; while the holiday is still active (no expiry, or expiry
still in the future), is_open_now returns false whatever the hours say. -/
theorem C9_holiday_lazily_cleared (now nowTime : Nat) (b : FeaturedBusiness)
    (hflag : b.isOnHoliday = true) :
    (∀ t, b.holidayUntil = some t → t < now →
      (FeaturedBusiness.is_open_now now nowTime b).2.isOnHoliday = false
      ∧ (FeaturedBusiness.is_open_now now nowTime b).1
          = _is_open_now b.openTime b.closeTime nowTime)
    ∧ (b.holidayUntil = none ∨ (∃ t, b.holidayUntil = some t ∧ now < t) →
      (FeaturedBusiness.is_open_now now nowTime b).1 = false) := by
  constructor
  · intro t ht hpast
    have hcond : (b.isOnHoliday
        && (match b.holidayUntil with
            | some t => decide (t ≤ now)
            | none => false)) = true := by
      rw [hflag, ht]
      simpa using Nat.le_of_lt hpast
    have hb2 : clearExpiredHoliday now b
        = { b with isOnHoliday := false, holidayUntil := none, holidayNote := none } := by
      unfold clearExpiredHoliday
      rw [if_pos hcond]
    constructor
    · simp [FeaturedBusiness.is_open_now, hb2]
    · simp only [FeaturedBusiness.is_open_now, hb2]
      simp [_is_open_now]
  · intro hactive
    have hcond : (b.isOnHoliday
        && (match b.holidayUntil with
            | some t => decide (t ≤ now)
            | none => false)) = false := by
      rcases hactive with hnone | ⟨t, ht, hfut⟩
      · simp [hnone]
      · simp [ht, Nat.not_le.mpr hfut]
    have hb2 : clearExpiredHoliday now b = b := by
      unfold clearExpiredHoliday
      rw [if_neg (by simp [hcond])]
    simp [FeaturedBusiness.is_open_now, hb2, hflag]

/-- C9 witness: a listing on holiday until tick 10, evaluated at tick 20
during its open hours: the returned row has the flag cleared and the call
reports open per the 09:00-17:00 hours; the same listing with the holiday
still running at tick 5 reports closed. -/
theorem C9_witness :
    ((FeaturedBusiness.is_open_now 20 720
        ⟨7, "Acme", "salon", "Indy, IN", "1 Main St", "Indy", "IN", "460",
          true, none, none, none, none, none, none,
          some 540, some 1020, true, some "away", some 10,
          "featured", true, none, none, 100, none⟩).2.isOnHoliday = false
      ∧ (FeaturedBusiness.is_open_now 20 720
        ⟨7, "Acme", "salon", "Indy, IN", "1 Main St", "Indy", "IN", "460",
          true, none, none, none, none, none, none,
          some 540, some 1020, true, some "away", some 10,
          "featured", true, none, none, 100, none⟩).1
        = _is_open_now (some 540) (some 1020) 720)
    ∧ (FeaturedBusiness.is_open_now 5 720
        ⟨7, "Acme", "salon", "Indy, IN", "1 Main St", "Indy", "IN", "460",
          true, none, none, none, none, none, none,
          some 540, some 1020, true, some "away", some 10,
          "featured", true, none, none, 100, none⟩).1 = false := by
  constructor
  · exact (C9_holiday_lazily_cleared 20 720 _ (by decide)).1 10 rfl (by decide)
  · exact (C9_holiday_lazily_cleared 5 720 _ (by decide)).2 (Or.inr ⟨10, rfl, by decide⟩)

/-- The three counts behind the stars dict of views._stars_for_rating
(range(full), bool(half), range(empty) — a range of a negative int is
empty, so the raw int counts are kept). -/
structure Stars where
  full : Int
  half : Int
  empty : Int
deriving DecidableEq

/-- Python int() on a float/rational: truncation toward zero. -/
def pyInt (q : ℚ) : Int :=
  if 0 ≤ q then ⌊q⌋ else ⌈q⌉

/-- views.py _stars_for_rating(rating): rating or 0, full = int part, half =
1 when the fractional part reaches one half, empty = 5 - full - half.
Ratings are modelled as rationals (the source stores a float). -/
def _stars_for_rating (rating : Option ℚ) : Stars :=
  let r := rating.getD 0
  let full := pyInt r
  let half : Int := if (1 : ℚ) / 2 ≤ r - full then 1 else 0
  ⟨full, half, 5 - full - half⟩

/-- C10: over ratings in [0, 5], full stars are the integer part (the floor,
since the rating is non-negative), the half star appears exactly when the
fractional part reaches one half, empty stars are 5 - full - half, and the
three examples of the spec (3.7, 0 and 5) evaluate as stated. -/
theorem C10_star_breakdown (r : ℚ) (h0 : 0 ≤ r) (_h5 : r ≤ 5) :
    (_stars_for_rating (some r)).full = ⌊r⌋
    ∧ ((_stars_for_rating (some r)).half = 1 ↔ (1 : ℚ) / 2 ≤ Int.fract r)
    ∧ ((_stars_for_rating (some r)).half = 0 ↔ ¬ (1 : ℚ) / 2 ≤ Int.fract r)
    ∧ (_stars_for_rating (some r)).empty
        = 5 - (_stars_for_rating (some r)).full - (_stars_for_rating (some r)).half
    ∧ _stars_for_rating (some (37 / 10)) = ⟨3, 1, 1⟩
    ∧ _stars_for_rating (some 0) = ⟨0, 0, 5⟩
    ∧ _stars_for_rating (some 5) = ⟨5, 0, 0⟩ := by
  have hfull : pyInt r = ⌊r⌋ := by
    unfold pyInt
    rw [if_pos h0]
  refine ⟨?_, ?_, ?_, ?_, ?_, ?_, ?_⟩
  · simp [_stars_for_rating, hfull]
  · simp only [_stars_for_rating, Option.getD_some, hfull, Int.fract]
    split_ifs with hc
    · simpa using hc
    · simpa using hc
  · simp only [_stars_for_rating, Option.getD_some, hfull, Int.fract]
    split_ifs with hc
    · simpa using hc
    · simpa using hc
  · simp [_stars_for_rating]
  · simp only [_stars_for_rating, Option.getD_some]
    norm_num [pyInt, Int.floor_eq_iff, Stars.mk.injEq]
  · simp only [_stars_for_rating, Option.getD_some]
    norm_num [pyInt]
  · simp only [_stars_for_rating, Option.getD_some]
    norm_num [pyInt]

/-- C10 witness: the characterisation applied at rating 3.7. -/
theorem C10_witness :
    _stars_for_rating (some (37 / 10)) = ⟨3, 1, 1⟩ ∧ (0 : ℚ) ≤ 37 / 10 :=
  ⟨(C10_star_breakdown (37 / 10) (by norm_num) (by norm_num)).2.2.2.2.1, by norm_num⟩

/-- Django icontains: case-insensitive substring containment. -/
def icontains (hay needle : String) : Bool :=
  listContainsSub (pyLower needle).data (pyLower hay).data

/-- models.py FeaturedBusiness.deactivate_if_expired: an active promotion
whose featured_until lies in the past is switched off and its priority
zeroed. -/
def FeaturedBusiness.deactivate_if_expired (now : Nat) (b : FeaturedBusiness) :
    FeaturedBusiness :=
  match b.featuredUntil with
  | some t => if t < now then { b with isActive := false, priority := 0 } else b
  | none => b

/-- views.py _expire_promotions: the lazy expiry sweep over the active rows
touched by the current request. -/
def _expire_promotions (now : Nat) (db : List FeaturedBusiness) :
    List FeaturedBusiness :=
  db.map (fun b =>
    if b.isActive then FeaturedBusiness.deactivate_if_expired now b else b)

/-- models.py FeaturedBusiness.is_promoted_now: active, not before
featured_from, not after featured_until. -/
def FeaturedBusiness.is_promoted_now (now : Nat) (b : FeaturedBusiness) : Bool :=
  if !b.isActive then
    false
  else if (match b.featuredFrom with
           | some t => decide (now < t)
           | none => false) then
    false
  else if (match b.featuredUntil with
           | some t => decide (t < now)
           | none => false) then
    false
  else
    true

/-- Python str.title for ASCII text: a letter is uppercased after a
non-letter and lowercased after a letter. -/
def titleCaseAux : Bool → List Char → List Char
  | _, [] => []
  | prevAlpha, c :: rest =>
    (if c.isAlpha then (if prevAlpha then c.toLower else c.toUpper) else c)
      :: titleCaseAux c.isAlpha rest

/-- Python str.title (term.title() in osm.py). -/
def pyTitle (s : String) : String :=
  ⟨titleCaseAux false s.data⟩

/-- tags.get(key, "") over the tag dictionary of an Overpass element. -/
def tagGet (tags : List (String × String)) (k : String) : String :=
  ((tags.find? (fun p => p.1 == k)).map (fun p => p.2)).getD ""

/-- One raw element of an Overpass response (the JSON objects under
elements): type, id, tags and either direct or center coordinates. -/
structure OsmElement where
  typ : String
  eid : Nat
  tags : List (String × String)
  lat : Option ℚ
  lon : Option ℚ
  centerLat : Option ℚ
  centerLon : Option ℚ
deriving DecidableEq

/-- One normalized dict produced by osm.py overpass_search. -/
structure OsmItem where
  osmId : String
  name : String
  address : String
  city : String
  state : String
  zipCode : String
  url : String
  phone : String
  lat : ℚ
  lon : ℚ
deriving DecidableEq

/-- The normalization loop of overpass_search: coordinates (direct, else
center, else skip), name with the title-cased term as fallback, address
parts from the tags, dedup by type_id key, url/phone fallbacks, best-effort
reverse-geocode backfill (revGeo is the external collaborator; Python
truthiness makes a zero coordinate skip the backfill), and the limit cut
applied after each append. -/
def overpassNorm (revGeo : ℚ → ℚ → String × String × String × String)
    (term : String) (limit : Nat) :
    List OsmElement → List String → List OsmItem → List OsmItem
  | [], _, acc => acc.reverse
  | el :: rest, seen, acc =>
    let coords : Option (ℚ × ℚ) :=
      match el.lat, el.lon with
      | some la, some lo => some (la, lo)
      | _, _ =>
        match el.centerLat, el.centerLon with
        | some la, some lo => some (la, lo)
        | _, _ => none
    match coords with
    | none => overpassNorm revGeo term limit rest seen acc
    | some (rlat, rlon) =>
      let osmId := el.typ ++ "_" ++ toString el.eid
      if seen.contains osmId then
        overpassNorm revGeo term limit rest seen acc
      else
        let nm := pyStrip (tagGet el.tags "name")
        let name := if nm = "" then pyTitle term else nm
        let address0 := pyStrip (tagGet el.tags "addr:housenumber" ++ " "
          ++ tagGet el.tags "addr:street")
        let city0 :=
          let cc := tagGet el.tags "addr:city"
          if cc = "" then tagGet el.tags "addr:suburb" else cc
        let state0 := tagGet el.tags "addr:state"
        let zip0 := tagGet el.tags "addr:postcode"
        let url :=
          let w := tagGet el.tags "website"
          if w ≠ "" then w
          else
            let cw := tagGet el.tags "contact:website"
            if cw ≠ "" then cw else tagGet el.tags "url"
        let phone :=
          let p := tagGet el.tags "phone"
          if p ≠ "" then p else tagGet el.tags "contact:phone"
        let needBackfill :=
          ((address0 == "") || (city0 == "") || (state0 == ""))
            && !(rlat == 0) && !(rlon == 0)
        let filled :=
          if needBackfill then
            let q := revGeo rlat rlon
            (if address0 = "" then q.1 else address0,
             if city0 = "" then q.2.1 else city0,
             if state0 = "" then q.2.2.1 else state0,
             if zip0 = "" then q.2.2.2 else zip0)
          else
            (address0, city0, state0, zip0)
        let item : OsmItem :=
          ⟨osmId, name, filled.1, filled.2.1, filled.2.2.1, filled.2.2.2,
            url, phone, rlat, rlon⟩
        let acc2 := item :: acc
        if limit ≤ acc2.length then
          acc2.reverse
        else
          overpassNorm revGeo term limit rest (osmId :: seen) acc2

/-- osm.py overpass_search: empty term short-circuits; the mirror loop takes
the first successful response (each entry of responses is the outcome of
POSTing the query to one shuffled mirror URL; the selector built from
TAG_MAP only shapes that outbound query, so it is absorbed into the
response parameter); when every mirror fails the function returns [] instead
of raising; otherwise the elements are normalized. -/
def overpass_search (revGeo : ℚ → ℚ → String × String × String × String)
    (responses : List (Except String (List OsmElement)))
    (term : String) (limit : Nat) : List OsmItem :=
  let t := pyLower (pyStrip term)
  if t = "" then
    []
  else
    match responses.findSome? (fun r => r.toOption) with
    | none => []
    | some elements => overpassNorm revGeo t limit elements [] []

/-- views.py _build_display_location(*parts): strip each part, drop the
empty ones, join with ", ", falling back to a fixed placeholder. -/
def _build_display_location (parts : List String) : String :=
  let cleaned := (parts.map pyStrip).filter (fun p => p != "")
  if cleaned = [] then "Unknown location" else joinWith ", " cleaned

/-- views.py _db_address_parts(db_biz): structured parts, with the free-text
location split on the first comma as a fallback when city and state are both
empty. -/
def _db_address_parts (b : FeaturedBusiness) : String × String × String × String :=
  if b.city = "" ∧ b.state = "" ∧ b.location ≠ "" then
    if b.location.data.contains ',' then
      let pieces := pySplit b.location ","
      (b.address, pyStrip (pieces.headD ""), pyStrip (joinWith "," pieces.tail),
        b.zipCode)
    else
      (b.address, pyStrip b.location, b.state, b.zipCode)
  else
    (b.address, b.city, b.state, b.zipCode)

/-- One normalized result dict rendered by the search template.  The
maps_url field (a fixed Google-maps prefix around the quoted display
location), the md5-fallback id and the raw osm_id/external_key keys are
omitted: no claim touches them. -/
structure Payload where
  dbId : Option Nat
  name : String
  address : String
  city : String
  state : String
  zipCode : String
  displayLocation : String
  displayPhone : String
  url : String
  imageUrl : String
  rating : ℚ
  reviewCount : Int
  featured : Bool
  plan : String
  featuredUntil : Option Nat
  ownerId : Option Nat
  isActive : Bool
  stars : Stars
  source : String
  category : Option String
deriving DecidableEq

/-- views.py _manual_to_payload(m), together with the extra keys the search
loop re-assigns on it (db_id, owner_id, is_active, featured, plan — all set
to the same values the base dict already carries). -/
def _manual_to_payload (m : FeaturedBusiness) : Payload :=
  let parts := _db_address_parts m
  let addr := parts.1
  let city := parts.2.1
  let state := parts.2.2.1
  let zipc := parts.2.2.2
  let display0 := _build_display_location [addr, city, state, zipc]
  { dbId := some m.id
    name := m.name
    address := addr
    city := city
    state := state
    zipCode := zipc
    displayLocation := if display0 = "" then m.location else display0
    displayPhone := m.phone.getD ""
    url := m.url.getD ""
    imageUrl := m.imageUrl.getD ""
    rating := m.rating.getD 0
    reviewCount := m.reviewCount.getD 0
    featured := m.isActive
    plan := m.plan
    featuredUntil := m.featuredUntil
    ownerId := m.ownerId
    isActive := m.isActive
    stars := _stars_for_rating (some (m.rating.getD 0))
    source := "manual"
    category := none }

/-- views.py _osm_to_payload(item), plus the category the search loop adds:
attaches the already-imported DB row (looked up by the osm: external key
stored in yelp_id) for the promotion fields, defaults rating and image to
zero/empty. -/
def _osm_to_payload (db : List FeaturedBusiness) (term : String)
    (item : OsmItem) : Payload :=
  let name := if item.name = "" then "Unknown business" else item.name
  let externalKey := if item.osmId ≠ "" then "osm:" ++ item.osmId else ""
  let dbRow :=
    if externalKey ≠ "" then
      db.find? (fun b => b.yelpId == some externalKey)
    else
      none
  { dbId := dbRow.map (fun d => d.id)
    name := name
    address := item.address
    city := item.city
    state := item.state
    zipCode := item.zipCode
    displayLocation :=
      _build_display_location [item.address, item.city, item.state, item.zipCode]
    displayPhone := item.phone
    url := item.url
    imageUrl := ""
    rating := 0
    reviewCount := 0
    featured := match dbRow with | some d => d.isActive | none => false
    plan := match dbRow with | some d => d.plan | none => "featured"
    featuredUntil := dbRow.bind (fun d => d.featuredUntil)
    ownerId := dbRow.bind (fun d => d.ownerId)
    isActive := match dbRow with | some d => d.isActive | none => false
    stars := _stars_for_rating (some 0)
    source := "osm"
    category := some term }

/-- The manual-listing filter of search_business: is_manual, term against
category or name, location against the four location fields (icontains). -/
def manualMatch (term location : String) (b : FeaturedBusiness) : Bool :=
  b.isManual
    && (icontains b.category term || icontains b.name term)
    && (icontains b.location location || icontains b.address location
        || icontains b.city location || icontains b.state location)

/-- The promoted-band filter of search_business: is_active, term against
name or category, location against location/city/state. -/
def featuredMatch (term location : String) (b : FeaturedBusiness) : Bool :=
  b.isActive
    && (icontains b.name term || icontains b.category term)
    && (icontains b.location location || icontains b.city location
        || icontains b.state location)

/-- Descending order on a nullable promotion end, null last (SQLite treats
NULL as smaller than every value, hence last under DESC). -/
def optDescGe (x y : Option Nat) : Bool :=
  match x, y with
  | some a, some b => decide (b ≤ a)
  | some _, none => true
  | none, none => true
  | none, some _ => false

/-- The order_by("-priority", "-featured_until") comparison: higher priority
first, ties broken by later promotion end. -/
def featuredLe (a b : FeaturedBusiness) : Bool :=
  decide (b.priority < a.priority)
    || (decide (a.priority = b.priority) && optDescGe a.featuredUntil b.featuredUntil)

/-- The body of the promoted-band loop of search_business: keep a row iff
its promotion window is valid and it is open right now; the availability
call returns the possibly holiday-cleared row, which is what the view
appends. -/
def promotedStep (now nowTime : Nat) (b : FeaturedBusiness) :
    Option FeaturedBusiness :=
  if b.is_promoted_now now then
    let pr := _business_available_now now nowTime b
    if pr.1 then some pr.2 else none
  else
    none

/-- The promoted-band pipeline of search_business: filter, order, slice to
50, keep rows per promotedStep, cap at 5. -/
def featuredSelect (now nowTime : Nat) (term location : String)
    (db1 : List FeaturedBusiness) : List FeaturedBusiness :=
  let sorted := (db1.filter (featuredMatch term location)).mergeSort featuredLe
  ((sorted.take 50).filterMap (promotedStep now nowTime)).take 5

/-- Result of geocode_location: (lat, lon, display_name, error). -/
structure GeocodeResult where
  lat : Option ℚ
  lon : Option ℚ
  display : String
  err : Option String
deriving DecidableEq

/-- What search_business renders: the merged result list, the promoted band
and the user-facing error.  The write-back of the lazy holiday clears to
the store is not tracked (no claim is about the stored rows after a
search). -/
structure SearchOutput where
  businesses : List Payload
  featured : List FeaturedBusiness
  error : Option String
deriving DecidableEq

/-- views.py search_business: expire promotions lazily, read the stripped
term and location, query manual listings, geocode then query Overpass
(retrying once with a larger radius — responses and responses2 are the two
attempt outcomes — and degrading every failure to an empty list), merge
manual-first, and select the promoted band.  Error strings are abbreviated
forms of the ones in the source. -/
def search_business (db : List FeaturedBusiness) (term0 location0 : String)
    (now nowTime : Nat) (geo : GeocodeResult)
    (responses responses2 : List (Except String (List OsmElement)))
    (revGeo : ℚ → ℚ → String × String × String × String)
    (isPost : Bool) : SearchOutput :=
  let db1 := _expire_promotions now db
  let term := pyStrip term0
  let location := pyStrip location0
  if term ≠ "" ∧ location ≠ "" then
    let manualP := (db1.filter (manualMatch term location)).map _manual_to_payload
    let osmStep : List Payload × Option String :=
      match geo.err with
      | some e => ([], some ("Location error: " ++ e))
      | none =>
        match geo.lat, geo.lon with
        | some _, some _ =>
          let r1 := overpass_search revGeo responses term 40
          let rs := if r1 = [] then overpass_search revGeo responses2 term 60 else r1
          (rs.map (_osm_to_payload db1 term), none)
        | _, _ => ([], some "Could not understand that location.")
    let businesses := manualP ++ osmStep.1
    let error :=
      if businesses = [] ∧ osmStep.2 = none then some "No results." else osmStep.2
    { businesses := businesses
      featured := featuredSelect now nowTime term location db1
      error := error }
  else if isPost then
    { businesses := [], featured := [],
      error := some "Please provide both business type and location." }
  else
    { businesses := [], featured := [], error := none }

/-- When every mirror attempt failed or returned an empty element list,
overpass_search yields the empty list (it is a total function, so no
exception can propagate). -/
theorem overpass_search_degrades (revGeo : ℚ → ℚ → String × String × String × String)
    (responses : List (Except String (List OsmElement))) (term : String) (limit : Nat)
    (h : ∀ r ∈ responses, match r with | Except.ok l => l = [] | Except.error _ => True) :
    overpass_search revGeo responses term limit = [] := by
  have hfind : responses.findSome? (fun r => r.toOption) = none
      ∨ responses.findSome? (fun r => r.toOption) = some [] := by
    cases hf : responses.findSome? (fun r => r.toOption) with
    | none => exact Or.inl rfl
    | some elements =>
      obtain ⟨r, hmem, hrt⟩ := List.exists_of_findSome?_eq_some hf
      have hr := h r hmem
      cases r with
      | ok l =>
        simp only [Except.toOption] at hrt
        cases hrt
        exact Or.inr (by rw [hr])
      | error e => simp [Except.toOption] at hrt
  unfold overpass_search
  rcases hfind with hf | hf <;> rw [hf] <;> simp [ite_self, overpassNorm]

/-- C6: with a resolvable location, when every external area-search attempt
fails (transport or provider error) or comes back empty — at both radii —
the external list is empty (overpass_search returns [] instead of raising)
and the rendered result list is exactly the locally matched
manually-curated payloads. -/
theorem C6_external_failure_keeps_local_results (db : List FeaturedBusiness)
    (term0 location0 : String) (now nowTime : Nat) (lat lon : ℚ) (disp : String)
    (responses responses2 : List (Except String (List OsmElement)))
    (revGeo : ℚ → ℚ → String × String × String × String) (isPost : Bool)
    (ht : pyStrip term0 ≠ "") (hl : pyStrip location0 ≠ "")
    (hr : ∀ r ∈ responses, match r with | Except.ok l => l = [] | Except.error _ => True)
    (hr2 : ∀ r ∈ responses2, match r with | Except.ok l => l = [] | Except.error _ => True) :
    overpass_search revGeo responses (pyStrip term0) 40 = []
    ∧ (search_business db term0 location0 now nowTime
          ⟨some lat, some lon, disp, none⟩ responses responses2 revGeo isPost).businesses
        = ((_expire_promotions now db).filter
            (manualMatch (pyStrip term0) (pyStrip location0))).map _manual_to_payload := by
  have h1 := overpass_search_degrades revGeo responses (pyStrip term0) 40 hr
  have h2 := overpass_search_degrades revGeo responses2 (pyStrip term0) 60 hr2
  refine ⟨h1, ?_⟩
  simp only [search_business]
  rw [if_pos (⟨ht, hl⟩ : pyStrip term0 ≠ "" ∧ pyStrip location0 ≠ "")]
  simp [h1, h2]

/-- C6 witness: one matching manual listing in the store, both external
attempts failing with a transport error: the result list is exactly that
listing converted to a payload. -/
theorem C6_witness :
    (search_business
        [⟨7, "Acme Salon", "salon", "Indy, IN", "1 Main St", "Indy", "IN", "460",
          true, none, none, none, none, none, none,
          some 540, some 1020, false, none, none, "featured", false, none, none, 0, none⟩]
        "salon" "Indy" 50 720 ⟨some 1, some 2, "Indy", none⟩
        [Except.error "timeout"] [Except.error "timeout2"]
        (fun _ _ => ("", "", "", "")) true).businesses
      = [_manual_to_payload
          ⟨7, "Acme Salon", "salon", "Indy, IN", "1 Main St", "Indy", "IN", "460",
            true, none, none, none, none, none, none,
            some 540, some 1020, false, none, none, "featured", false, none, none, 0, none⟩] := by
  have h := C6_external_failure_keeps_local_results
    [⟨7, "Acme Salon", "salon", "Indy, IN", "1 Main St", "Indy", "IN", "460",
      true, none, none, none, none, none, none,
      some 540, some 1020, false, none, none, "featured", false, none, none, 0, none⟩]
    "salon" "Indy" 50 720 1 2 "Indy"
    [Except.error "timeout"] [Except.error "timeout2"]
    (fun _ _ => ("", "", "", "")) true
    (by decide) (by decide)
    (by intro r hmem; simp at hmem; subst hmem; trivial)
    (by intro r hmem; simp at hmem; subst hmem; trivial)
  rw [h.2]
  have hf : List.filter (manualMatch (pyStrip "salon") (pyStrip "Indy"))
      (_expire_promotions 50
        [⟨7, "Acme Salon", "salon", "Indy, IN", "1 Main St", "Indy", "IN", "460",
          true, none, none, none, none, none, none,
          some 540, some 1020, false, none, none, "featured", false, none, none, 0, none⟩])
      = [⟨7, "Acme Salon", "salon", "Indy, IN", "1 Main St", "Indy", "IN", "460",
          true, none, none, none, none, none, none,
          some 540, some 1020, false, none, none, "featured", false, none, none, 0, none⟩] := by
    decide
  rw [hf]
  rfl

/-- The holiday reset touches only the three holiday fields: priority is
kept. -/
theorem clear_priority (now : Nat) (b : FeaturedBusiness) :
    (clearExpiredHoliday now b).priority = b.priority := by
  unfold clearExpiredHoliday
  split <;> rfl

/-- The holiday reset keeps featured_until. -/
theorem clear_featuredUntil (now : Nat) (b : FeaturedBusiness) :
    (clearExpiredHoliday now b).featuredUntil = b.featuredUntil := by
  unfold clearExpiredHoliday
  split <;> rfl

/-- The holiday reset keeps is_active. -/
theorem clear_isActive (now : Nat) (b : FeaturedBusiness) :
    (clearExpiredHoliday now b).isActive = b.isActive := by
  unfold clearExpiredHoliday
  split <;> rfl

/-- Clearing an expired holiday twice is the same as once. -/
theorem clear_idem (now : Nat) (b : FeaturedBusiness) :
    clearExpiredHoliday now (clearExpiredHoliday now b) = clearExpiredHoliday now b := by
  by_cases h : (b.isOnHoliday
      && (match b.holidayUntil with
          | some t => decide (t ≤ now)
          | none => false)) = true
  · have h1 : clearExpiredHoliday now b
        = { b with isOnHoliday := false, holidayUntil := none, holidayNote := none } := by
      rw [clearExpiredHoliday, if_pos h]
    rw [h1]
    rw [clearExpiredHoliday]
    simp
  · have h1 : clearExpiredHoliday now b = b := by
      rw [clearExpiredHoliday, if_neg h]
    rw [h1]
    exact h1

/-- The updated row returned by the availability helper is exactly the
holiday-cleared input row. -/
theorem available_now_snd (now nowTime : Nat) (b : FeaturedBusiness) :
    (_business_available_now now nowTime b).2 = clearExpiredHoliday now b := by
  simp only [_business_available_now]
  split <;> rfl

/-- A row found open stays open when the availability helper is re-run on
the returned (holiday-cleared) row. -/
theorem available_now_stable (now nowTime : Nat) (b : FeaturedBusiness)
    (h : (_business_available_now now nowTime b).1 = true) :
    (_business_available_now now nowTime
        ((_business_available_now now nowTime b).2)).1 = true := by
  simp only [_business_available_now] at h ⊢
  by_cases hh : (clearExpiredHoliday now b).isOnHoliday = true
  · rw [if_pos hh] at h
    simp at h
  · rw [if_neg hh] at h ⊢
    simp only [clear_idem]
    rw [if_neg hh]
    exact h

/-- A currently promoted row is active. -/
theorem promoted_isActive (now : Nat) (b : FeaturedBusiness)
    (h : FeaturedBusiness.is_promoted_now now b = true) : b.isActive = true := by
  unfold FeaturedBusiness.is_promoted_now at h
  cases hb : b.isActive
  · rw [hb] at h
    simp at h
  · rfl

/-- A currently promoted row has no promotion end in the past. -/
theorem promoted_window (now : Nat) (b : FeaturedBusiness)
    (h : FeaturedBusiness.is_promoted_now now b = true) :
    ∀ t, b.featuredUntil = some t → ¬ t < now := by
  intro t ht hlt
  unfold FeaturedBusiness.is_promoted_now at h
  split_ifs at h with h1 h2 h3
  rw [ht] at h3
  exact absurd (decide_eq_true hlt) h3

/-- What a kept promoted-band entry is: the holiday-cleared row of a
promoted, currently open listing. -/
theorem promotedStep_eq_some (now nowTime : Nat) (a x : FeaturedBusiness)
    (h : promotedStep now nowTime a = some x) :
    x = clearExpiredHoliday now a
    ∧ FeaturedBusiness.is_promoted_now now a = true
    ∧ (_business_available_now now nowTime a).1 = true := by
  unfold promotedStep at h
  by_cases h1 : FeaturedBusiness.is_promoted_now now a = true
  · rw [if_pos h1] at h
    dsimp only [] at h
    by_cases h2 : (_business_available_now now nowTime a).1 = true
    · rw [if_pos h2] at h
      have hx : (_business_available_now now nowTime a).2 = x := by
        injection h
      refine ⟨?_, h1, h2⟩
      rw [← hx, available_now_snd]
    · rw [if_neg h2] at h
      exact Option.noConfusion h
  · rw [if_neg h1] at h
    exact Option.noConfusion h

/-- Transitivity of the null-last descending order on promotion ends. -/
theorem optDescGe_trans (x y z : Option Nat)
    (h1 : optDescGe x y = true) (h2 : optDescGe y z = true) :
    optDescGe x z = true := by
  cases x <;> cases y <;> cases z <;> simp [optDescGe] at * <;> omega

/-- Totality of the null-last descending order on promotion ends. -/
theorem optDescGe_total (x y : Option Nat) :
    optDescGe x y = true ∨ optDescGe y x = true := by
  cases x <;> cases y <;> simp [optDescGe] <;> omega

/-- Transitivity of the (-priority, -featured_until) comparison. -/
theorem featuredLe_trans (a b c : FeaturedBusiness)
    (h1 : featuredLe a b = true) (h2 : featuredLe b c = true) :
    featuredLe a c = true := by
  simp only [featuredLe, Bool.or_eq_true, Bool.and_eq_true, decide_eq_true_eq] at *
  rcases h1 with h1 | ⟨h1e, h1g⟩ <;> rcases h2 with h2 | ⟨h2e, h2g⟩
  · exact Or.inl (lt_trans h2 h1)
  · exact Or.inl (h2e ▸ h1)
  · exact Or.inl (h1e ▸ h2)
  · exact Or.inr ⟨h1e.trans h2e, optDescGe_trans _ _ _ h1g h2g⟩

/-- Totality of the (-priority, -featured_until) comparison. -/
theorem featuredLe_total (a b : FeaturedBusiness) :
    (featuredLe a b || featuredLe b a) = true := by
  simp only [featuredLe, Bool.or_eq_true, Bool.and_eq_true, decide_eq_true_eq]
  rcases lt_trichotomy a.priority b.priority with h | h | h
  · exact Or.inr (Or.inl h)
  · rcases optDescGe_total a.featuredUntil b.featuredUntil with hg | hg
    · exact Or.inl (Or.inr ⟨h, hg⟩)
    · exact Or.inr (Or.inr ⟨h.symm, hg⟩)
  · exact Or.inl (Or.inl h)

/-- The comparison only reads priority and featured_until, which the holiday
reset keeps. -/
theorem featuredLe_clear (now : Nat) (a b : FeaturedBusiness) :
    featuredLe (clearExpiredHoliday now a) (clearExpiredHoliday now b)
      = featuredLe a b := by
  simp only [featuredLe, clear_priority, clear_featuredUntil]

/-- The promoted band holds at most five listings. -/
theorem featuredSelect_length (now nowTime : Nat) (term location : String)
    (db1 : List FeaturedBusiness) :
    (featuredSelect now nowTime term location db1).length ≤ 5 := by
  unfold featuredSelect
  simpa using Nat.min_le_left _ _

/-- Every listing in the promoted band is active, has no promotion end in
the past, and is open right now. -/
theorem featuredSelect_mem (now nowTime : Nat) (term location : String)
    (db1 : List FeaturedBusiness) (b : FeaturedBusiness)
    (hb : b ∈ featuredSelect now nowTime term location db1) :
    b.isActive = true
    ∧ (∀ t, b.featuredUntil = some t → ¬ t < now)
    ∧ (_business_available_now now nowTime b).1 = true := by
  unfold featuredSelect at hb
  have hb2 := List.mem_of_mem_take hb
  rw [List.mem_filterMap] at hb2
  obtain ⟨a, _, hfa⟩ := hb2
  obtain ⟨hxa, hp, hv⟩ := promotedStep_eq_some now nowTime a b hfa
  refine ⟨?_, ?_, ?_⟩
  · rw [hxa, clear_isActive]
    exact promoted_isActive now a hp
  · intro t ht
    rw [hxa, clear_featuredUntil] at ht
    exact promoted_window now a hp t ht
  · have := available_now_stable now nowTime a hv
    rw [available_now_snd] at this
    rw [hxa]
    exact this

/-- The promoted band is ordered by priority descending, promotion end
descending. -/
theorem featuredSelect_sorted (now nowTime : Nat) (term location : String)
    (db1 : List FeaturedBusiness) :
    (featuredSelect now nowTime term location db1).Pairwise
      (fun a b => featuredLe a b = true) := by
  unfold featuredSelect
  apply List.Pairwise.sublist (List.take_sublist _ _)
  rw [List.pairwise_filterMap]
  have hsorted : ((db1.filter (featuredMatch term location)).mergeSort featuredLe).Pairwise
      (fun a b => featuredLe a b = true) :=
    List.sorted_mergeSort
      (fun a b c => featuredLe_trans a b c)
      (fun a b => featuredLe_total a b) _
  have htake := hsorted.sublist (List.take_sublist 50 _)
  refine htake.imp ?_
  intro a b hab x hx y hy
  obtain ⟨hxa, _, _⟩ := promotedStep_eq_some now nowTime a x hx
  obtain ⟨hyb, _, _⟩ := promotedStep_eq_some now nowTime b y hy
  rw [hxa, hyb, featuredLe_clear]
  exact hab

/-- In a manual-first concatenation, any external payload sits at a strictly
larger index than any manual payload. -/
theorem sources_split (A B : List Payload)
    (hA : ∀ p ∈ A, p.source = "manual") (hB : ∀ p ∈ B, p.source = "osm")
    (i j : Nat) (hi : i < (A ++ B).length) (hj : j < (A ++ B).length)
    (hio : ((A ++ B).get ⟨i, hi⟩).source = "osm")
    (hjm : ((A ++ B).get ⟨j, hj⟩).source = "manual") : j < i := by
  simp only [List.get_eq_getElem] at hio hjm
  have hAi : A.length ≤ i := by
    by_contra hc
    push_neg at hc
    rw [List.getElem_append_left hc] at hio
    have hs := hA _ (List.getElem_mem hc)
    rw [hio] at hs
    exact absurd hs (by decide)
  have hjA : j < A.length := by
    by_contra hc
    push_neg at hc
    rw [List.getElem_append_right hc] at hjm
    have hb2 : j - A.length < B.length := by
      rw [List.length_append] at hj
      omega
    have hs := hB _ (List.getElem_mem hb2)
    rw [hjm] at hs
    exact absurd hs (by decide)
  omega

/-- Shape of the search output: the result list is a block of manual-source
payloads followed by a block of external-source payloads, and the promoted
band is either the featuredSelect pipeline or empty (when no search ran). -/
theorem search_business_fields (db : List FeaturedBusiness)
    (term0 location0 : String) (now nowTime : Nat) (geo : GeocodeResult)
    (responses responses2 : List (Except String (List OsmElement)))
    (revGeo : ℚ → ℚ → String × String × String × String) (isPost : Bool) :
    (∃ A B, (search_business db term0 location0 now nowTime geo
          responses responses2 revGeo isPost).businesses = A ++ B
        ∧ (∀ p ∈ A, p.source = "manual") ∧ (∀ p ∈ B, p.source = "osm"))
    ∧ ((search_business db term0 location0 now nowTime geo
          responses responses2 revGeo isPost).featured
        = featuredSelect now nowTime (pyStrip term0) (pyStrip location0)
            (_expire_promotions now db)
      ∨ (search_business db term0 location0 now nowTime geo
          responses responses2 revGeo isPost).featured = []) := by
  unfold search_business
  by_cases hc : pyStrip term0 ≠ "" ∧ pyStrip location0 ≠ ""
  · rw [if_pos hc]
    dsimp only
    constructor
    · refine ⟨((_expire_promotions now db).filter
          (manualMatch (pyStrip term0) (pyStrip location0))).map _manual_to_payload,
        _, rfl, ?_, ?_⟩
      · intro p hp
        rw [List.mem_map] at hp
        obtain ⟨m, _, hm⟩ := hp
        rw [← hm]
        rfl
      · rcases geo with ⟨glat, glon, gdisp, gerr⟩
        cases gerr
        · cases glat
          · intro p hp
            simp at hp
          · cases glon
            · intro p hp
              simp at hp
            · intro p hp
              dsimp only at hp
              rw [List.mem_map] at hp
              obtain ⟨m, _, hm⟩ := hp
              rw [← hm]
              rfl
        · intro p hp
          simp at hp
    · exact Or.inl rfl
  · rw [if_neg hc]
    by_cases hp : isPost = true
    · rw [if_pos hp]
      exact ⟨⟨[], [], rfl, by constructor <;> (intro p hp2; cases hp2)⟩, Or.inr rfl⟩
    · rw [if_neg hp]
      exact ⟨⟨[], [], rfl, by constructor <;> (intro p hp2; cases hp2)⟩, Or.inr rfl⟩

/-- C7: in every search result the manually-curated payloads come before all
external ones, and the promoted band holds at most 5 listings, each active,
none with a promotion end in the past, each open right now, ordered by
priority descending then promotion end descending. -/
theorem C7_manual_first_and_promoted_band (db : List FeaturedBusiness)
    (term0 location0 : String) (now nowTime : Nat) (geo : GeocodeResult)
    (responses responses2 : List (Except String (List OsmElement)))
    (revGeo : ℚ → ℚ → String × String × String × String) (isPost : Bool)
    (out : SearchOutput)
    (h : search_business db term0 location0 now nowTime geo
        responses responses2 revGeo isPost = out) :
    (∀ i j (hi : i < out.businesses.length) (hj : j < out.businesses.length),
        (out.businesses.get ⟨i, hi⟩).source = "osm" →
        (out.businesses.get ⟨j, hj⟩).source = "manual" → j < i)
    ∧ out.featured.length ≤ 5
    ∧ (∀ b ∈ out.featured,
        b.isActive = true
        ∧ (∀ t, b.featuredUntil = some t → ¬ t < now)
        ∧ (_business_available_now now nowTime b).1 = true)
    ∧ out.featured.Pairwise (fun a b => featuredLe a b = true) := by
  subst h
  obtain ⟨⟨A, B, hAB, hA, hB⟩, hfeat⟩ := search_business_fields db term0 location0
    now nowTime geo responses responses2 revGeo isPost
  refine ⟨?_, ?_, ?_, ?_⟩
  · intro i j
    rw [hAB]
    intro hi hj hio hjm
    exact sources_split A B hA hB i j hi hj hio hjm
  · rcases hfeat with hf | hf <;> rw [hf]
    · exact featuredSelect_length now nowTime _ _ _
    · simp
  · intro b hb
    rcases hfeat with hf | hf <;> rw [hf] at hb
    · exact featuredSelect_mem now nowTime _ _ _ b hb
    · cases hb
  · rcases hfeat with hf | hf <;> rw [hf]
    · exact featuredSelect_sorted now nowTime _ _ _
    · exact List.Pairwise.nil

/-- C7 witness: the promoted-band cap instantiated on a concrete search. -/
theorem C7_witness :
    (search_business
        [⟨7, "Acme Salon", "salon", "Indy, IN", "1 Main St", "Indy", "IN", "460",
          true, none, none, none, none, none, none,
          some 540, some 1020, false, none, none, "featured", true, none, some 90, 100, none⟩]
        "salon" "Indy" 50 720 ⟨some 1, some 2, "Indy", none⟩
        [] [] (fun _ _ => ("", "", "", "")) true).featured.length ≤ 5 :=
  (C7_manual_first_and_promoted_band
    [⟨7, "Acme Salon", "salon", "Indy, IN", "1 Main St", "Indy", "IN", "460",
      true, none, none, none, none, none, none,
      some 540, some 1020, false, none, none, "featured", true, none, some 90, 100, none⟩]
    "salon" "Indy" 50 720 ⟨some 1, some 2, "Indy", none⟩
    [] [] (fun _ _ => ("", "", "", "")) true _ rfl).2.1
